import Mathlib

/-!
Shallow embedding of the `ws-multiplex` package: the multiplexer core
(`ws-multiplex.ts`), the error taxonomy (`ws-multiplex-error.ts`) and the
write path of the duplex adapter (`ws-multiplex-socket.ts`), together with
proofs about the wire codec, the channel allocator, the channel tables and
the termination behaviour.

Conventions of the embedding:
* JS `Buffer`s are `List Nat` (byte values).
* JS objects used as integer-keyed hash maps are association lists
  (`List (Nat × β)`); `alookup`/`aset`/`adel` mirror property read, write
  and `delete`.
* The carrier (`ws` WebSocket) is modelled by its observable effect: each
  `socket.send` call is recorded as an output event; a carrier that throws
  is modelled by an optional index `failAt` of the first `socket.send`
  call (within one logical message) that throws.
* Callbacks installed per channel (`onOpen`/`onClose`/...) and events
  emitted on the multiplexer are recorded as output events in invocation
  order.  Completion callbacks handed to `socket.send` are modelled as
  running as soon as the carrier has accepted the frames.
* Timers (`setTimeout`/`setInterval`) are modelled by the boolean
  `ackTimeout` flag of a channel context (armed / not armed); the
  keep-alive supervisor is real-time behaviour and is not modelled.
-/

namespace WSMX

abbrev Bytes := List Nat

/-- Error codes of `WebSocketMultiplexErrorCode` (string enum). -/
inductive ErrCode where
  | pingTimeout
  | socketClosedUnexpectedly
  | sockedClosed
  | unsupportedProtocolVersion
  | noChannels
  | openChannelTimeout
  | openChannelRejected
  | channelNotOpen
  | channelClosedByPeer
  | openChannelReuse
  | channelMismatch
deriving DecidableEq, Repr

/-- The string value of each enum member (name and value coincide). -/
def errCodeStr : ErrCode → String
  | .pingTimeout => "ERR_WS_PING_TIMEOUT"
  | .socketClosedUnexpectedly => "ERR_WS_SOCKET_CLOSED_UNEXPECTEDLY"
  | .sockedClosed => "ERR_WS_SOCKED_CLOSED"
  | .unsupportedProtocolVersion => "ERR_WSM_UNSUPPORTED_PROTOCOL_VERSION"
  | .noChannels => "ERR_WSM_NO_CHANNELS"
  | .openChannelTimeout => "ERR_WSM_OPEN_CHANNEL_TIMEOUT"
  | .openChannelRejected => "ERR_WSM_OPEN_CHANNEL_REJECTED"
  | .channelNotOpen => "ERR_WSM_CHANNEL_NOT_OPEN"
  | .channelClosedByPeer => "ERR_WSM_CHANNEL_CLOSED_BY_PEER"
  | .openChannelReuse => "ERR_WSM_OPEN_CHANNEL_REUSE"
  | .channelMismatch => "ERR_WSM_CHANNEL_MISMATCH"

/-- `WebSocketMultiplexErrorCode[str]`: enum-object indexing.  Returns the
member whose name is `str`, and `undefined` (here `none`) otherwise. -/
def codeOfString (s : String) : Option ErrCode :=
  if s = "ERR_WS_PING_TIMEOUT" then some .pingTimeout
  else if s = "ERR_WS_SOCKET_CLOSED_UNEXPECTEDLY" then some .socketClosedUnexpectedly
  else if s = "ERR_WS_SOCKED_CLOSED" then some .sockedClosed
  else if s = "ERR_WSM_UNSUPPORTED_PROTOCOL_VERSION" then some .unsupportedProtocolVersion
  else if s = "ERR_WSM_NO_CHANNELS" then some .noChannels
  else if s = "ERR_WSM_OPEN_CHANNEL_TIMEOUT" then some .openChannelTimeout
  else if s = "ERR_WSM_OPEN_CHANNEL_REJECTED" then some .openChannelRejected
  else if s = "ERR_WSM_CHANNEL_NOT_OPEN" then some .channelNotOpen
  else if s = "ERR_WSM_CHANNEL_CLOSED_BY_PEER" then some .channelClosedByPeer
  else if s = "ERR_WSM_OPEN_CHANNEL_REUSE" then some .openChannelReuse
  else if s = "ERR_WSM_CHANNEL_MISMATCH" then some .channelMismatch
  else none

/-- `WebSocketMultiplexErrorMessage[code]`. -/
def errCodeMessage : ErrCode → String
  | .pingTimeout => "No pong received from peer within alive threshold"
  | .socketClosedUnexpectedly => "Websocket closed unexpectedly"
  | .sockedClosed => "Operation on closed websocket"
  | .unsupportedProtocolVersion => "Unsupported websocket multiplex protocol version"
  | .noChannels => "Maximum number of open channels reached"
  | .openChannelTimeout => "Timeout opening channel, no ACK received"
  | .openChannelRejected => "Request to open channel rejected by peer"
  | .channelNotOpen => "Operation on closed channel"
  | .channelClosedByPeer => "Channel closed by remote peer"
  | .openChannelReuse => "Attempted channel reuse while still open"
  | .channelMismatch => "Channel mismatch"

/-- A JS error value: either a plain `Error` or a `WebSocketMultiplexError`
with its `code` property (which is `undefined`, i.e. `none`, when the
constructor was fed an unknown code) and optional `remote` error. -/
inductive JSError where
  | generic (message : String) : JSError
  | wsm (code : Option ErrCode) (message : String) (remote : Option JSError) : JSError

/-- Message of a JS error. -/
def errMessage : JSError → String
  | .generic m => m
  | .wsm _ m _ => m

/-- Constructor message of `WebSocketMultiplexError`:
`code + ": " + description`, plus ` (detail)` when a detail is given.
When the code is unknown (`none`), both pieces read `undefined`. -/
def wsmMessage (code : Option ErrCode) (detail : Option String) : String :=
  (match code with
   | some c => errCodeStr c ++ ": " ++ errCodeMessage c
   | none => "undefined" ++ ": " ++ "undefined")
  ++ (match detail with
      | some d => " (" ++ d ++ ")"
      | none => "")

/-- `new WebSocketMultiplexError(code, detail?)` with no remote attached. -/
def mkWSMError (code : ErrCode) (detail : Option String) : JSError :=
  .wsm (some code) (wsmMessage (some code) detail) none

/-- `new WebSocketMultiplexError(code, detail?)` followed by
`err.remote = remote`. -/
def mkWSMErrorR (code : ErrCode) (detail : Option String) (remote : Option JSError) : JSError :=
  .wsm (some code) (wsmMessage (some code) detail) remote

/-- `WebSocketMultiplexError.from(str)`.  Note: enum indexing with an
unknown key yields `undefined` without throwing, and the constructor does
not throw either, so this function never returns `undefined`; for an
unknown string it returns an error object whose `code` is `undefined` and
whose message reads "undefined: undefined". -/
def wsmErrorFrom (s : String) : Option JSError :=
  some (.wsm (codeOfString s) (wsmMessage (codeOfString s) none) none)

/-! ### UTF-8 (Buffer.from(string) / buf.toString("utf-8")) -/

/-- UTF-8 encoding of one scalar value. -/
def utf8EncodeChar (c : Char) : List Nat :=
  let n := c.toNat
  if n < 128 then [n]
  else if n < 2048 then [192 + n / 64, 128 + n % 64]
  else if n < 65536 then [224 + n / 4096, 128 + (n / 64) % 64, 128 + n % 64]
  else [240 + n / 262144, 128 + (n / 4096) % 64, 128 + (n / 64) % 64, 128 + n % 64]

/-- `Buffer.from(s)`: UTF-8 bytes of a string. -/
def strBytes (s : String) : Bytes :=
  s.data.foldr (fun c acc => utf8EncodeChar c ++ acc) []

/-- One step of UTF-8 decoding: decode the first scalar value and return
it with the remaining bytes.  Malformed input yields U+FFFD for one byte,
matching the replacement behaviour of `buf.toString("utf-8")` closely
enough for the modelled inputs (all of which are well-formed). -/
def utf8DecodeStep (b : Nat) (rest : Bytes) : Char × Bytes :=
  if b < 128 then (Char.ofNat b, rest)
  else if 194 ≤ b ∧ b < 224 then
    match rest with
    | b1 :: rest' =>
      if 128 ≤ b1 ∧ b1 < 192 then (Char.ofNat ((b - 192) * 64 + (b1 - 128)), rest')
      else (Char.ofNat 65533, rest)
    | [] => (Char.ofNat 65533, [])
  else if 224 ≤ b ∧ b < 240 then
    match rest with
    | b1 :: b2 :: rest' =>
      if 128 ≤ b1 ∧ b1 < 192 ∧ 128 ≤ b2 ∧ b2 < 192 then
        (Char.ofNat ((b - 224) * 4096 + (b1 - 128) * 64 + (b2 - 128)), rest')
      else (Char.ofNat 65533, rest)
    | _ => (Char.ofNat 65533, [])
  else if 240 ≤ b ∧ b < 245 then
    match rest with
    | b1 :: b2 :: b3 :: rest' =>
      if 128 ≤ b1 ∧ b1 < 192 ∧ 128 ≤ b2 ∧ b2 < 192 ∧ 128 ≤ b3 ∧ b3 < 192 then
        (Char.ofNat ((b - 240) * 262144 + (b1 - 128) * 4096 + (b2 - 128) * 64 + (b3 - 128)), rest')
      else (Char.ofNat 65533, rest)
    | _ => (Char.ofNat 65533, [])
  else (Char.ofNat 65533, rest)

/-- Fuel-driven UTF-8 decoding loop. -/
def utf8DecodeFuel : Nat → Bytes → List Char
  | 0, _ => []
  | _ + 1, [] => []
  | fuel + 1, b :: rest =>
    let (c, rest') := utf8DecodeStep b rest
    c :: utf8DecodeFuel fuel rest'

/-- `buf.toString("utf-8")`. -/
def utf8Decode (bytes : Bytes) : String :=
  String.mk (utf8DecodeFuel bytes.length bytes)

/-! ### JS objects used as integer-keyed maps -/

/-- An object used as a hash map with integer-like keys. -/
abbrev AList (β : Type) := List (Nat × β)

/-- Property read `m[k]` (`undefined` is `none`). -/
def alookup {β : Type} (m : AList β) (k : Nat) : Option β :=
  (m.find? (fun p => p.1 == k)).map (fun p => p.2)

/-- Property write `m[k] = v`: replace the entry in place when the key
exists (keys are unique in every reachable table), append it otherwise. -/
def aset {β : Type} : AList β → Nat → β → AList β
  | [], k, v => [(k, v)]
  | p :: t, k, v => if p.1 = k then (k, v) :: t else p :: aset t k v

/-- `delete m[k]`. -/
def adel {β : Type} (m : AList β) (k : Nat) : AList β :=
  m.filter (fun p => p.1 != k)

/-- `Object.keys(m)` (as numbers; the later lexicographic sort in the
allocator makes the enumeration order irrelevant there). -/
def akeys {β : Type} (m : AList β) : List Nat :=
  m.map (fun p => p.1)

/-! ### Wire format -/

/-- Version-2 frame header. -/
structure WSMHeader where
  version : Nat
  type : Nat
  dstChannel : Nat
  srcChannel : Nat
  length : Nat
deriving DecidableEq, Repr

/-- A decoded on-wire message. -/
structure WSMMessage where
  header : WSMHeader
  data : Bytes
deriving DecidableEq, Repr

/-- `buf.readUInt16BE(off)`; throws (`none`) when out of range. -/
def readUInt16BE (b : Bytes) (off : Nat) : Option Nat :=
  if off + 2 ≤ b.length then
    some (b.getD off 0 * 256 + b.getD (off + 1) 0)
  else none

/-- `buf.readUInt32BE(off)`; throws (`none`) when out of range. -/
def readUInt32BE (b : Bytes) (off : Nat) : Option Nat :=
  if off + 4 ≤ b.length then
    some (b.getD off 0 * 16777216 + b.getD (off + 1) 0 * 65536 +
          b.getD (off + 2) 0 * 256 + b.getD (off + 3) 0)
  else none

/-- `WebSocketMultiplex.decodeMessage`: split the chunk into the 16-byte
header (read big-endian) and the payload; any read past the end throws,
which the `try`/`catch` turns into an error (`none`). -/
def decodeMessage (chunk : Bytes) : Option WSMMessage :=
  let headerBuffer := chunk.take 16
  match readUInt16BE headerBuffer 0, readUInt16BE headerBuffer 2,
        readUInt32BE headerBuffer 4, readUInt32BE headerBuffer 8,
        readUInt32BE headerBuffer 12 with
  | some v, some t, some d, some s, some l =>
    some { header := { version := v, type := t, dstChannel := d, srcChannel := s, length := l },
           data := chunk.drop 16 }
  | _, _, _, _, _ => none

/-- Total payload length: sum of the segment lengths (`0` when the data
argument is absent).  A single `Buffer` argument is modelled as a
one-segment list. -/
def totalLen (data : Option (List Bytes)) : Nat :=
  match data with
  | some segs => segs.foldl (fun a s => a + s.length) 0
  | none => 0

/-- `WebSocketMultiplex.encodeHeader`: the version-2 header record (the
byte image on the wire is its big-endian encoding) and the data length. -/
def encodeHeader (type dst src : Nat) (data : Option (List Bytes)) : WSMHeader × Nat :=
  let dataLength := totalLen data
  ({ version := 2, type := type, dstChannel := dst, srcChannel := src, length := dataLength },
   dataLength)

/-! ### Channel allocator -/

/-- `CHANNEL_MAX = Math.pow(2, 32)`. -/
def CHANNEL_MAX : Nat := 4294967296

/-- Lexicographic comparison of character lists by code unit, the order
used by the default JS `Array.prototype.sort` comparator on strings. -/
def charListLe : List Char → List Char → Bool
  | [], _ => true
  | _ :: _, [] => false
  | a :: as, b :: bs =>
    if a.toNat < b.toNat then true
    else if b.toNat < a.toNat then false
    else charListLe as bs

/-- JS default `Array.prototype.sort` comparison: decimal string
representations compared lexicographically.  (The sort below is a stable
sort, and the keys are distinct, so any correct sorting algorithm
produces the same list as the JS runtime's.) -/
def lexRel (a b : Nat) : Prop := charListLe (Nat.repr a).data (Nat.repr b).data = true

instance : DecidableRel lexRel :=
  fun a b => inferInstanceAs (Decidable (_ = true))

theorem charListLe_refl (l : List Char) : charListLe l l = true := by
  induction l with
  | nil => rfl
  | cons a t ih => simp [charListLe, ih]

theorem charListLe_cons_iff (a b : Char) (as bs : List Char) :
    charListLe (a :: as) (b :: bs) = true ↔
      (a.toNat < b.toNat ∨ (a.toNat = b.toNat ∧ charListLe as bs = true)) := by
  by_cases h1 : a.toNat < b.toNat
  · simp [charListLe, h1]
  · by_cases h2 : b.toNat < a.toNat
    · simp only [charListLe, h1, h2, if_true, if_false]
      constructor
      · intro h
        exact absurd h (by simp)
      · rintro (h | ⟨h, _⟩)
        · exact h.elim
        · exact absurd h.symm (by omega)
    · have he : a.toNat = b.toNat := by omega
      simp [charListLe, h1, h2, he]

theorem charListLe_total (as bs : List Char) :
    charListLe as bs = true ∨ charListLe bs as = true := by
  induction as generalizing bs with
  | nil => left; rfl
  | cons a as' ih =>
    cases bs with
    | nil => right; rfl
    | cons b bs' =>
      rw [charListLe_cons_iff, charListLe_cons_iff]
      rcases Nat.lt_trichotomy a.toNat b.toNat with h | h | h
      · exact Or.inl (Or.inl h)
      · rcases ih bs' with ht | ht
        · exact Or.inl (Or.inr ⟨h, ht⟩)
        · exact Or.inr (Or.inr ⟨h.symm, ht⟩)
      · exact Or.inr (Or.inl h)

theorem charListLe_trans (as bs cs : List Char)
    (h1 : charListLe as bs = true) (h2 : charListLe bs cs = true) :
    charListLe as cs = true := by
  induction as generalizing bs cs with
  | nil => rfl
  | cons a as' ih =>
    cases bs with
    | nil => simp [charListLe] at h1
    | cons b bs' =>
      cases cs with
      | nil => simp [charListLe] at h2
      | cons c cs' =>
        rw [charListLe_cons_iff] at h1 h2 ⊢
        rcases h1 with h1 | ⟨h1e, h1t⟩ <;> rcases h2 with h2 | ⟨h2e, h2t⟩
        · exact Or.inl (by omega)
        · exact Or.inl (by omega)
        · exact Or.inl (by omega)
        · exact Or.inr ⟨by omega, ih bs' cs' h1t h2t⟩

instance : IsTotal Nat lexRel :=
  ⟨fun a b => charListLe_total (Nat.repr a).data (Nat.repr b).data⟩

instance : IsTrans Nat lexRel :=
  ⟨fun _ _ _ h h2 => charListLe_trans _ _ _ h h2⟩

theorem lexRel_refl (a : Nat) : lexRel a a := charListLe_refl _

/-- The probe loop of `allocateChannel`:
`for (let i = 0; openChannels[channel] != undefined && i < maxChannels; i++) channel = channel + 1`.
Note there is no wrap-around in the loop body. -/
def probeLoop (busy : List Nat) : Nat → Nat → Nat
  | ch, 0 => ch
  | ch, fuel + 1 => if busy.contains ch then probeLoop busy (ch + 1) fuel else ch

/-- Result of `allocateChannel`: a channel, the `NoChannels` error, or a
thrown `AssertionError` from the two trailing `assert`s. -/
inductive AllocResult where
  | ok (channel : Nat)
  | noChannels
  | assertFail
deriving DecidableEq, Repr

/-- `WebSocketMultiplex.allocateChannel` on the list of open-channel keys:
sort the keys as strings, fail when the table is full, start from
`(last sorted key mod 2^32) + 1` and probe upwards. -/
def allocateChannel (busy : List Nat) (maxChannels : Nat) : AllocResult :=
  let sortedKeys := busy.insertionSort lexRel
  if maxChannels ≤ sortedKeys.length then .noChannels
  else
    let start := (sortedKeys.getLast?.getD 0) % CHANNEL_MAX + 1
    let channel := probeLoop busy start maxChannels
    if 1 ≤ channel ∧ channel ≤ CHANNEL_MAX ∧ busy.contains channel = false then .ok channel
    else .assertFail

/-! ### Multiplexer state -/

/-- Per-channel context.  The five callbacks are modelled as recorded
events; `ackTimeout` records whether the single-shot ack timer is armed. -/
structure ChannelContext where
  dstChannel : Nat
  bytesWritten : Nat
  bytesRead : Nat
  ackTimeout : Bool
deriving DecidableEq, Repr

/-- Mutable state of a `WebSocketMultiplex` instance. -/
structure MuxState where
  closed : Bool
  maxChannels : Nat
  openChannels : AList ChannelContext
  openRemoteChannels : AList Nat
deriving DecidableEq, Repr

/-- One `socket.send` call on the carrier: either the 16-byte header
(represented by its field record) or one payload segment, with the
end-of-message flag. -/
inductive WsFrame where
  | header (h : WSMHeader) (fin : Bool)
  | payload (data : Bytes) (fin : Bool)
deriving DecidableEq, Repr

/-- Observable outputs, in invocation order: carrier writes, per-channel
callback invocations, events emitted on the multiplexer or on a socket
created for an inbound OPEN, and completion callbacks handed to the
public API (`async` marks a `process.nextTick` invocation). -/
inductive Event where
  | wsSend (frame : WsFrame)
  | cbOpen (channel dst : Nat)
  | cbClose (channel : Nat)
  | cbError (channel : Nat) (e : JSError)
  | cbData (channel : Nat) (data : Bytes)
  | cbFlow (channel : Nat) (stop : Bool)
  | emitError (e : JSError)
  | emitClose
  | emitConnection
  | sockError (e : JSError)
  | completion (async : Bool) (r : Option JSError)

/-- The opaque error thrown by a failing `socket.send`. -/
def carrierErr : JSError := .generic "carrier send failure"

/-- Payload segments as `socket.send` calls: every segment but the last
has `fin: false`, the last has `fin: true`. -/
def payloadFrames : List Bytes → List WsFrame
  | [] => []
  | [s] => [.payload s true]
  | s :: s2 :: rest => .payload s false :: payloadFrames (s2 :: rest)

/-- The `socket.send` calls of one logical message: the header (with
`fin` exactly when there is no payload) followed by the payload
segments. -/
def mkCalls (header : WSMHeader) (data : Option (List Bytes)) : List WsFrame :=
  match data with
  | none => [.header header true]
  | some segs => .header header false :: payloadFrames segs

/-- A carrier that throws on call number `i` (within one message) accepts
the calls before `i` and aborts the rest. -/
def takeCalls (calls : List WsFrame) (failAt : Option Nat) : List WsFrame × Bool :=
  match failAt with
  | none => (calls, true)
  | some i => if i < calls.length then (calls.take i, false) else (calls, true)

/-- Result of `sendMessage`: the boolean return value, the state after,
the outputs, and the argument passed to the completion callback
(`none` = success). -/
structure SendRes where
  ok : Bool
  st : MuxState
  evs : List Event
  cbErr : Option JSError

/-- Replace the context of channel `c`. -/
def setCtx (st : MuxState) (c : Nat) (ctx : ChannelContext) : MuxState :=
  { st with openChannels := aset st.openChannels c ctx }

/-- `WebSocketMultiplex.sendMessage`.  When closed, the callback gets
`ERR_WS_SOCKED_CLOSED` and nothing is written.  Otherwise the header and
payload frames are handed to the carrier; `bytesWritten` of the source
channel is bumped for DATA messages only after the carrier accepted all
frames; a throwing `socket.send` is caught, fed to the callback, and
makes the call return `false` with the state unchanged. -/
def sendMessage (st : MuxState) (type dst src : Nat) (data : Option (List Bytes)) (failAt : Option Nat) : SendRes :=
  if st.closed then
    { ok := false, st := st, evs := [], cbErr := some (mkWSMError .sockedClosed none) }
  else if type = 2 ∧ dst ≠ 0 then
    -- assert(type === MESSAGE_OPEN ? destChannel == 0 : true): satisfied at
    -- every modelled call site; a violation would throw.
    { ok := false, st := st, evs := [], cbErr := none }
  else
    let hd := encodeHeader type dst src data
    let calls := mkCalls hd.1 data
    let sent := takeCalls calls failAt
    let evs := sent.1.map Event.wsSend
    if sent.2 then
      match data with
      | some _ =>
        if type = 1 then
          match alookup st.openChannels src with
          | some ctx =>
            { ok := true,
              st := setCtx st src { ctx with bytesWritten := ctx.bytesWritten + hd.2 },
              evs := evs, cbErr := none }
          | none =>
            -- `openChannels[src].bytesWritten` throws inside the try-block
            { ok := false, st := st, evs := evs, cbErr := some carrierErr }
        else
          { ok := true, st := st, evs := evs, cbErr := none }
      | none => { ok := true, st := st, evs := evs, cbErr := none }
    else
      { ok := false, st := st, evs := evs, cbErr := some carrierErr }

/-- The CLOSE payload derived from an error: `Buffer.from(err.code)` for
a `WebSocketMultiplexError` (an error whose `code` is `undefined` does
not occur at any modelled call site), `Buffer.from(err.message)` for a
plain `Error`, nothing when no error is given. -/
def errPayload (err : Option JSError) : Option (List Bytes) :=
  match err with
  | some (.wsm c _ _) => some [strBytes ((c.map errCodeStr).getD "undefined")]
  | some (.generic m) => some [strBytes m]
  | none => none

/-- `WebSocketMultiplex.closeRemoteChannel`: send CLOSE (with the error
code string as payload when an error is given); the send-completion
callback then deletes `openRemoteChannels[dstChannel]` and clears the
source context's `dstChannel` when a non-zero source channel was given. -/
def closeRemoteChannel (st : MuxState) (dstChannel : Nat) (srcChannel : Option Nat) (err : Option JSError) (failAt : Option Nat) : SendRes :=
  let r := sendMessage st 4 dstChannel (srcChannel.getD 0) (errPayload err) failAt
  let st2 := { r.st with openRemoteChannels := adel r.st.openRemoteChannels dstChannel }
  let st3 :=
    match srcChannel with
    | some s =>
      if 0 < s then
        match alookup st2.openChannels s with
        | some ctx => setCtx st2 s { ctx with dstChannel := 0 }
        | none => st2
      else st2
    | none => st2
  { ok := r.ok, st := st3, evs := r.evs, cbErr := r.cbErr }

/-- A state together with the outputs produced while reaching it. -/
structure StEvs where
  st : MuxState
  evs : List Event

/-- `WebSocketMultiplex.closeLocalChannel`: cancel the ack timer, fire
`onError` (when an error is given) then `onClose`, drop the remote-map
entry of an open context, and remove the local context. -/
def closeLocalChannel (st : MuxState) (channel : Nat) (err : Option JSError) : StEvs :=
  match alookup st.openChannels channel with
  | some ctx =>
    let evs := (match err with
                | some e => [Event.cbError channel e]
                | none => []) ++ [Event.cbClose channel]
    let st1 :=
      if 0 < ctx.dstChannel then
        { st with openRemoteChannels := adel st.openRemoteChannels ctx.dstChannel }
      else st
    { st := { st1 with openChannels := adel st1.openChannels channel }, evs := evs }
  | none => { st := { st with openChannels := adel st.openChannels channel }, evs := [] }

/-- Result of the public `close`: the `[boolean, error]` pair plus state
and outputs. -/
structure CloseRes where
  ok : Bool
  err : Option JSError
  st : MuxState
  evs : List Event

/-- `WebSocketMultiplex.close`. -/
def close (st : MuxState) (channel : Nat) (failAt : Option Nat) : CloseRes :=
  match alookup st.openChannels channel with
  | none => { ok := false, err := some (mkWSMError .channelNotOpen none), st := st, evs := [] }
  | some ctx =>
    if ctx.dstChannel = 0 then
      { ok := false, err := some (mkWSMError .channelNotOpen none), st := st, evs := [] }
    else
      let r := closeRemoteChannel st ctx.dstChannel (some channel) none failAt
      let r2 := closeLocalChannel r.st channel none
      { ok := true, err := none, st := r2.st, evs := r.evs ++ r2.evs }

/-- Result of the public `send`/`flowControl`: the boolean return value
plus state and outputs. -/
structure APIRes where
  ok : Bool
  st : MuxState
  evs : List Event

/-- `WebSocketMultiplex.send`. -/
def send (st : MuxState) (channel : Nat) (data : List Bytes) (failAt : Option Nat) : APIRes :=
  match alookup st.openChannels channel with
  | some ctx =>
    if ctx.dstChannel = 0 then
      { ok := false, st := st,
        evs := [Event.completion true (some (mkWSMError .channelNotOpen none))] }
    else
      let r := sendMessage st 1 ctx.dstChannel channel (some data) failAt
      { ok := r.ok, st := r.st, evs := r.evs ++ [Event.completion false r.cbErr] }
  | none =>
    { ok := false, st := st,
      evs := [Event.completion true (some (mkWSMError .channelNotOpen none))] }

/-- `WebSocketMultiplex.flowControl`. -/
def flowControl (st : MuxState) (channel : Nat) (stop : Bool) (failAt : Option Nat) : APIRes :=
  match alookup st.openChannels channel with
  | some ctx =>
    if ctx.dstChannel = 0 then
      { ok := false, st := st,
        evs := [Event.completion true (some (mkWSMError .channelNotOpen none))] }
    else
      let r := sendMessage st (if stop then 5 else 6) ctx.dstChannel channel none failAt
      { ok := r.ok, st := r.st, evs := r.evs ++ [Event.completion false r.cbErr] }
  | none =>
    { ok := false, st := st,
      evs := [Event.completion true (some (mkWSMError .channelNotOpen none))] }

/-- `WebSocketMultiplex.channelInfo`. -/
def channelInfo (st : MuxState) (channel : Nat) : Option (Nat × Nat) :=
  (alookup st.openChannels channel).map (fun ctx => (ctx.bytesWritten, ctx.bytesRead))

/-- Options of the public `open`. -/
structure OpenArgs where
  timeout : Option Nat
  dstChannel : Option Nat
deriving DecidableEq, Repr

/-- Result of the public `open`: the `[channel, error]` pair, the state,
the outputs, and (for the accepting path) the argument the ACK
send-completion callback was invoked with. -/
structure OpenRes where
  channel : Option Nat
  err : Option JSError
  st : MuxState
  evs : List Event
  ackCb : Option (Option JSError)

/-- `WebSocketMultiplex.open`.  `failAt` drives the carrier during the
OPEN/ACK message, `failAt2` during the CLOSE sent by the recovery
`close` of a failed accept. -/
def openOp (st : MuxState) (opts : OpenArgs) (failAt failAt2 : Option Nat) : OpenRes :=
  let body := fun (dstCh? : Option Nat) =>
    match allocateChannel (akeys st.openChannels) st.maxChannels with
    | .noChannels =>
      { channel := none, err := some (mkWSMError .noChannels none),
        st := st, evs := [], ackCb := none : OpenRes }
    | .assertFail =>
      -- the two asserts in allocateChannel would throw out of open
      { channel := none, err := some (.generic "AssertionError"),
        st := st, evs := [], ackCb := none }
    | .ok channel =>
      let ctx0 : ChannelContext :=
        { dstChannel := 0, bytesWritten := 0, bytesRead := 0, ackTimeout := false }
      let stA := setCtx st channel ctx0
      match dstCh? with
      | none =>
        let r := sendMessage stA 2 0 channel none failAt
        match r.cbErr with
        | some e =>
          { channel := some channel, err := none,
            st := { r.st with openChannels := adel r.st.openChannels channel },
            evs := r.evs ++ [Event.cbError channel e], ackCb := none }
        | none =>
          -- success: arm the ack timer
          { channel := some channel, err := none,
            st := setCtx r.st channel { ctx0 with ackTimeout := true },
            evs := r.evs, ackCb := none }
      | some d =>
        let stB := { (setCtx stA channel { ctx0 with dstChannel := d }) with
                     openRemoteChannels := aset stA.openRemoteChannels d channel }
        let r := sendMessage stB 3 d channel none failAt
        match r.cbErr with
        | some e =>
          let c := close r.st channel failAt2
          { channel := some channel, err := none, st := c.st,
            evs := r.evs ++ [Event.cbError channel e] ++ c.evs, ackCb := some (some e) }
        | none =>
          -- onOpen(dstChannel) is dispatched on process.nextTick
          { channel := some channel, err := none, st := r.st,
            evs := r.evs ++ [Event.cbOpen channel d], ackCb := some none }
  match opts.dstChannel with
  | some d =>
    if (alookup st.openRemoteChannels d).isSome then
      { channel := none,
        err := some (mkWSMError .openChannelReuse (some ("channel=" ++ Nat.repr d))),
        st := st, evs := [], ackCb := none }
    else body (some d)
  | none => body none

/-- The loop of `terminate` over the snapshot of open-channel keys. -/
def terminateLoop (st : MuxState) (keys : List Nat) (fails : Nat → Option Nat) : StEvs :=
  match keys with
  | [] => { st := st, evs := [] }
  | k :: rest =>
    match alookup st.openChannels k with
    | some ctx =>
      let r := closeRemoteChannel st ctx.dstChannel (some k) none (fails 0)
      let r2 := closeLocalChannel r.st k none
      let r3 := terminateLoop r2.st rest (fun i => fails (i + 1))
      { st := r3.st, evs := r.evs ++ r2.evs ++ r3.evs }
    | none =>
      -- unreachable: the snapshot keys are exactly the live contexts
      terminateLoop st rest (fun i => fails (i + 1))

/-- `WebSocketMultiplex.terminate`: no-op when already closed; otherwise
close every channel (remote then local), mark the instance closed, detach
the carrier listeners, and emit `error` (when given) then `close`. -/
def terminate (st : MuxState) (error : Option JSError) (fails : Nat → Option Nat) : StEvs :=
  if st.closed then { st := st, evs := [] }
  else
    let keys := (akeys st.openChannels).insertionSort (· ≤ ·)
    let r := terminateLoop st keys fails
    { st := { r.st with closed := true },
      evs := r.evs ++ (match error with
                       | some e => [Event.emitError e]
                       | none => []) ++ [Event.emitClose] }

/-- `WebSocketMultiplex.handleAckMessage`. -/
def handleAckMessage (st : MuxState) (m : WSMMessage) (failAt : Option Nat) : StEvs :=
  match alookup st.openChannels m.header.dstChannel with
  | none =>
    let r := closeRemoteChannel st m.header.srcChannel none
      (some (mkWSMError .channelNotOpen none)) failAt
    { st := r.st, evs := r.evs }
  | some ctx =>
    let st1 := { (setCtx st m.header.dstChannel
                   { ctx with dstChannel := m.header.srcChannel, ackTimeout := false }) with
                 openRemoteChannels :=
                   aset st.openRemoteChannels m.header.srcChannel m.header.dstChannel }
    { st := st1, evs := [Event.cbOpen m.header.dstChannel m.header.srcChannel] }

/-- `WebSocketMultiplex.handleCloseMessage`.  The payload, when present,
is decoded as UTF-8 and fed to `WebSocketMultiplexError.from`, whose
result is never `undefined`, so the `|| new Error(errorStr)` fallback
can never be taken. -/
def handleCloseMessage (st : MuxState) (m : WSMMessage) : StEvs :=
  let context := alookup st.openChannels m.header.dstChannel
  let closeErr : Option JSError :=
    if 0 < m.data.length then
      let errorStr := utf8Decode m.data
      some ((wsmErrorFrom errorStr).getD (.generic errorStr))
    else none
  let err : Option JSError :=
    if (context.map ChannelContext.ackTimeout).getD false then
      some (mkWSMErrorR .openChannelRejected (closeErr.map errMessage) closeErr)
    else
      closeErr.map (fun ce => mkWSMErrorR .channelClosedByPeer (some (errMessage ce)) closeErr)
  closeLocalChannel st m.header.dstChannel err

/-- `WebSocketMultiplex.handleDataMessage`. -/
def handleDataMessage (st : MuxState) (m : WSMMessage) (fails : Nat → Option Nat) : StEvs :=
  match alookup st.openChannels m.header.dstChannel with
  | none =>
    let r := closeRemoteChannel st m.header.srcChannel none
      (some (mkWSMError .channelNotOpen none)) (fails 0)
    { st := r.st, evs := r.evs }
  | some ctx =>
    if alookup st.openRemoteChannels m.header.srcChannel ≠ some ctx.dstChannel then
      let err := mkWSMError .channelMismatch
        (some ("src=" ++ Nat.repr m.header.srcChannel ++ " dst=" ++ Nat.repr ctx.dstChannel))
      let r := closeRemoteChannel st ctx.dstChannel (some m.header.dstChannel) (some err) (fails 0)
      let r2 := closeLocalChannel r.st m.header.dstChannel (some err)
      match alookup r2.st.openRemoteChannels m.header.srcChannel with
      | some second =>
        match alookup r2.st.openChannels second with
        | some sctx =>
          let r3 := closeRemoteChannel r2.st sctx.dstChannel (some second) (some err) (fails 1)
          let r4 := closeLocalChannel r3.st second (some err)
          { st := r4.st, evs := r.evs ++ r2.evs ++ r3.evs ++ r4.evs }
        | none => { st := r2.st, evs := r.evs ++ r2.evs }
      | none => { st := r2.st, evs := r.evs ++ r2.evs }
    else
      { st := setCtx st m.header.dstChannel
                { ctx with bytesRead := ctx.bytesRead + m.data.length },
        evs := [Event.cbData m.header.dstChannel m.data] }

/-- `WebSocketMultiplex.handlePauseMessage`. -/
def handlePauseMessage (st : MuxState) (m : WSMMessage) (failAt : Option Nat) : StEvs :=
  match alookup st.openChannels m.header.dstChannel with
  | none =>
    let r := closeRemoteChannel st m.header.srcChannel none
      (some (mkWSMError .channelNotOpen none)) failAt
    { st := r.st, evs := r.evs }
  | some _ => { st := st, evs := [Event.cbFlow m.header.dstChannel true] }

/-- `WebSocketMultiplex.handleResumeMessage`. -/
def handleResumeMessage (st : MuxState) (m : WSMMessage) (failAt : Option Nat) : StEvs :=
  match alookup st.openChannels m.header.dstChannel with
  | none =>
    let r := closeRemoteChannel st m.header.srcChannel none
      (some (mkWSMError .channelNotOpen none)) failAt
    { st := r.st, evs := r.evs }
  | some _ => { st := st, evs := [Event.cbFlow m.header.dstChannel false] }

/-- `WebSocketMultiplex.handleOpenMessage`: a fresh socket accepts the
announced peer channel (`open` with `dstChannel = src`); an error is
emitted on that socket, success is published via the `connection` event
once the ACK completion callback has run.  The `catch` branch of the
source is unreachable because `connect` emits errors instead of
throwing. -/
def handleOpenMessage (st : MuxState) (m : WSMMessage) (failAt failAt2 : Option Nat) : StEvs :=
  let r := openOp st { timeout := none, dstChannel := some m.header.srcChannel } failAt failAt2
  match r.err with
  | some e => { st := r.st, evs := r.evs ++ [Event.sockError e] }
  | none =>
    match r.ackCb with
    | some none => { st := r.st, evs := r.evs ++ [Event.emitConnection] }
    | _ => { st := r.st, evs := r.evs }

/-- `WebSocketMultiplex.onMessage`: drop undecodable chunks, terminate on
a version other than 2, then dispatch on the message type (unknown types
are ignored). -/
def onMessage (st : MuxState) (message : Bytes) (fails : Nat → Option Nat) : StEvs :=
  match decodeMessage message with
  | none => { st := st, evs := [] }
  | some m =>
    if m.header.version ≠ 2 then
      terminate st (some (mkWSMError .unsupportedProtocolVersion none)) fails
    else if m.header.type = 1 then handleDataMessage st m fails
    else if m.header.type = 2 then handleOpenMessage st m (fails 0) (fails 1)
    else if m.header.type = 3 then handleAckMessage st m (fails 0)
    else if m.header.type = 4 then handleCloseMessage st m
    else if m.header.type = 5 then handlePauseMessage st m (fails 0)
    else if m.header.type = 6 then handleResumeMessage st m (fails 0)
    else { st := st, evs := [] }

/-- Multiplexer constructor options (only the channel cap is relevant to
the modelled state; the keep-alive supervisor is timer-driven). -/
structure MuxOptions where
  maxChannels : Option Nat
deriving DecidableEq, Repr

/-- `DEFAULT_MAX_OPEN_CHANNELS`. -/
def DEFAULT_MAX_OPEN_CHANNELS : Nat := 65535

/-- `options?.maxChannels || DEFAULT_MAX_OPEN_CHANNELS`: JS `||` falls
back to the default when the option is absent or `0` (falsy). -/
def jsOrDefault (v : Option Nat) (dflt : Nat) : Nat :=
  match v with
  | some n => if n = 0 then dflt else n
  | none => dflt

/-- The state installed by the constructor. -/
def mkMux (options : Option MuxOptions) : MuxState :=
  { closed := false,
    maxChannels := jsOrDefault (options.bind MuxOptions.maxChannels) DEFAULT_MAX_OPEN_CHANNELS,
    openChannels := [],
    openRemoteChannels := [] }

/-! ### Operation traces -/

/-- Write-path state of a `WebSocketMultiplexSocket`: the channel id, the
current writer (`writerDirect = false` means `this.writer` is
`bufferedWrite`, `true` means it is `wsm.send`), and the internal write
buffer. -/
structure SockState where
  channel : Nat
  writerDirect : Bool
  writeBuffer : List (Nat × List Bytes)
deriving DecidableEq, Repr

/-- A call the adapter makes into the multiplexer (`wsm.send`). -/
inductive SockOut where
  | muxSend (channel : Nat) (data : List Bytes)
deriving DecidableEq, Repr

/-- `bufferedWrite`: push `{channel, data, callback}` onto the buffer. -/
def bufferedWrite (s : SockState) (channel : Nat) (data : List Bytes) : SockState :=
  { s with writeBuffer := s.writeBuffer ++ [(channel, data)] }

/-- The shift-loop of `flushWriteBuffer`: forward every buffered entry to
`wsm.send` in FIFO order. -/
def flushLoop : List (Nat × List Bytes) → List SockOut
  | [] => []
  | b :: rest => .muxSend b.1 b.2 :: flushLoop rest

/-- `flushWriteBuffer`. -/
def flushWriteBuffer (s : SockState) : SockState × List SockOut :=
  ({ s with writeBuffer := [] }, flushLoop s.writeBuffer)

/-- `_write`/`_writev`: hand the chunk to the current writer with
`this.channel` (a `_write` chunk is a one-segment list). -/
def sockWrite (s : SockState) (data : List Bytes) : SockState × List SockOut :=
  if s.writerDirect then (s, [.muxSend s.channel data])
  else (bufferedWrite s s.channel data, [])

/-- The write-path effect of the `onOpen` callback: drain the write
buffer to the multiplexer, then switch the writer to direct send. -/
def sockOnOpen (s : SockState) : SockState × List SockOut :=
  let f := flushWriteBuffer s
  ({ f.1 with writerDirect := true }, f.2)

/-- Adapter state right after `connect` obtained channel `channel` while
the channel is still opening. -/
def initSock (channel : Nat) : SockState :=
  { channel := channel, writerDirect := false, writeBuffer := [] }

/-- A sequence of consumer writes, collecting the multiplexer calls. -/
def writeAll (s : SockState) : List (List Bytes) → SockState × List SockOut
  | [] => (s, [])
  | d :: rest =>
    let r := sockWrite s d
    let r2 := writeAll r.1 rest
    (r2.1, r.2 ++ r2.2)

/-! ### Shared example states -/

/-- A multiplexer with one open channel: local id 1, peer id 7. -/
def exampleOpenSt : MuxState :=
  { closed := false, maxChannels := 65535,
    openChannels := [(1, { dstChannel := 7, bytesWritten := 0, bytesRead := 0, ackTimeout := false })],
    openRemoteChannels := [(7, 1)] }

/-- A version-0 frame (type DATA, dst 255, src 1, length 0), as in the
protocol-mismatch test. -/
def badVersionFrame : Bytes :=
  [0, 0, 0, 1, 0, 0, 0, 255, 0, 0, 0, 1, 0, 0, 0, 0]

theorem alookup_cons {β : Type} (p : Nat × β) (t : AList β) (k : Nat) :
    alookup (p :: t) k = if p.1 = k then some p.2 else alookup t k := by
  by_cases h : p.1 = k <;> simp [alookup, List.find?_cons, h]

theorem alookup_aset {β : Type} (m : AList β) (k : Nat) (v : β) (k' : Nat) :
    alookup (aset m k v) k' = if k' = k then some v else alookup m k' := by
  induction m with
  | nil =>
    by_cases h : k' = k
    · subst h
      simp [aset, alookup_cons]
    · simp [aset, alookup_cons, alookup, h, show ¬ k = k' from fun hh => h hh.symm]
  | cons p t ih =>
    by_cases h : p.1 = k
    · by_cases h2 : k' = k
      · subst h2
        simp [aset, h, alookup_cons]
      · simp [aset, h, alookup_cons, h2,
          show ¬ k = k' from fun hh => h2 hh.symm,
          show ¬ p.1 = k' from by rw [h]; exact fun hh => h2 hh.symm]
    · by_cases h2 : p.1 = k'
      · have hk : ¬ k' = k := fun he => h (h2.trans he)
        simp [aset, h, alookup_cons, h2, hk]
      · simp [aset, h, alookup_cons, h2, ih]

theorem alookup_adel {β : Type} (m : AList β) (k k' : Nat) :
    alookup (adel m k) k' = if k' = k then none else alookup m k' := by
  induction m with
  | nil => by_cases h : k' = k <;> simp [adel, alookup, h]
  | cons p t ih =>
    by_cases h : p.1 = k
    · have hpred : (p.1 != k) = false := by simp [h]
      simp only [adel] at ih
      by_cases h2 : k' = k
      · subst h2
        simp [adel, List.filter_cons, hpred, ih]
      · have hp2 : ¬ p.1 = k' := by rw [h]; exact fun he => h2 he.symm
        simp [adel, List.filter_cons, hpred, alookup_cons, hp2, h2, ih]
    · have hpred : (p.1 != k) = true := by simp [h]
      simp only [adel] at ih
      by_cases h2 : p.1 = k'
      · have hk : ¬ k' = k := fun he => h (h2.trans he)
        simp [adel, List.filter_cons, hpred, alookup_cons, h2, hk]
      · simp [adel, List.filter_cons, hpred, alookup_cons, h2, ih]

theorem alookup_eq_none_iff {β : Type} (m : AList β) (k : Nat) :
    alookup m k = none ↔ k ∉ akeys m := by
  induction m with
  | nil => simp [alookup, akeys]
  | cons p t ih =>
    simp only [alookup_cons, akeys, List.map_cons, List.mem_cons]
    by_cases h : p.1 = k
    · simp [h]
    · simp only [akeys] at ih
      simp [h, show ¬ k = p.1 from fun he => h he.symm, ih]

theorem eq_nil_of_alookup_none {β : Type} (m : AList β) (h : ∀ k, alookup m k = none) : m = [] := by
  cases m with
  | nil => rfl
  | cons p t =>
    have := h p.1
    simp [alookup_cons] at this

/-! ## C9: frame decoding -/

/-- C9: for every buffer shorter than 16 bytes, `decodeMessage` returns
an error (no message); for every buffer of at least 16 bytes it succeeds
with the five header fields read big-endian from the first 16 bytes and
the remaining bytes as payload. -/
theorem decodeMessage_spec (chunk : Bytes) :
    (chunk.length < 16 → decodeMessage chunk = none) ∧
    (16 ≤ chunk.length → decodeMessage chunk =
      some { header := { version := chunk.getD 0 0 * 256 + chunk.getD 1 0,
                         type := chunk.getD 2 0 * 256 + chunk.getD 3 0,
                         dstChannel := chunk.getD 4 0 * 16777216 + chunk.getD 5 0 * 65536 +
                                       chunk.getD 6 0 * 256 + chunk.getD 7 0,
                         srcChannel := chunk.getD 8 0 * 16777216 + chunk.getD 9 0 * 65536 +
                                       chunk.getD 10 0 * 256 + chunk.getD 11 0,
                         length := chunk.getD 12 0 * 16777216 + chunk.getD 13 0 * 65536 +
                                   chunk.getD 14 0 * 256 + chunk.getD 15 0 },
             data := chunk.drop 16 }) := by
  constructor
  · intro h
    have h5 : readUInt32BE (chunk.take 16) 12 = none := by
      simp [readUInt32BE, List.length_take]
      omega
    cases h1 : readUInt16BE (chunk.take 16) 0 <;>
      cases h2 : readUInt16BE (chunk.take 16) 2 <;>
        cases h3 : readUInt32BE (chunk.take 16) 4 <;>
          cases h4 : readUInt32BE (chunk.take 16) 8 <;>
            simp [decodeMessage, h1, h2, h3, h4, h5]
  · intro h
    have hlen : (chunk.take 16).length = 16 := by
      simp [List.length_take]
      omega
    have hget : ∀ i, i < 16 → (chunk.take 16).getD i 0 = chunk.getD i 0 := by
      intro i hi
      simp [List.getD, List.getElem?_take, hi]
    simp only [decodeMessage, readUInt16BE, readUInt32BE, hlen]
    norm_num [hget]

/-- Witness for C9 at a 14-byte and an 18-byte input. -/
theorem decodeMessage_spec_witness :
    decodeMessage [0, 2, 0, 1, 0, 0, 0, 255, 0, 0, 0, 1, 0, 0] = none ∧
    decodeMessage [0, 2, 0, 1, 0, 0, 0, 255, 0, 0, 0, 1, 0, 0, 0, 2, 65, 65] =
      some { header := { version := 2, type := 1, dstChannel := 255, srcChannel := 1, length := 2 },
             data := [65, 65] } := by
  refine ⟨(decodeMessage_spec _).1 (by decide), ?_⟩
  have h := (decodeMessage_spec [0, 2, 0, 1, 0, 0, 0, 255, 0, 0, 0, 1, 0, 0, 0, 2, 65, 65]).2 (by decide)
  rw [h]
  rfl

/-! ## C7: the maxChannels option and the zero cap -/

/-- C7 counterexample: a multiplexer constructed with the option
`maxChannels = 0` does not reject `open` with `NoChannels` — JS `||`
treats the `0` as falsy, installs the default 65535, and the first open
succeeds with channel 1. -/
theorem maxChannels_zero_counterexample :
    (mkMux (some { maxChannels := some 0 })).maxChannels = 65535 ∧
    (openOp (mkMux (some { maxChannels := some 0 }))
        { timeout := none, dstChannel := none } none none).channel = some 1 ∧
    (openOp (mkMux (some { maxChannels := some 0 }))
        { timeout := none, dstChannel := none } none none).err = none := by
  exact ⟨rfl, rfl, rfl⟩

/-- C7 (amended): a multiplexer whose `maxChannels` value is 0 rejects
every `open` immediately with `NoChannels`, but the constructor option
`maxChannels = 0` never produces that value: being falsy it is replaced
by the default 65535, which is also used when the option is absent;
a non-zero option value is kept. -/
theorem maxChannels_zero_spec :
    (∀ busy, allocateChannel busy 0 = .noChannels) ∧
    (∀ st : MuxState, st.maxChannels = 0 → ∀ opts f1 f2, opts.dstChannel = none →
      openOp st opts f1 f2 =
        { channel := none, err := some (mkWSMError .noChannels none),
          st := st, evs := [], ackCb := none }) ∧
    (mkMux (some { maxChannels := some 0 })).maxChannels = DEFAULT_MAX_OPEN_CHANNELS ∧
    (mkMux none).maxChannels = DEFAULT_MAX_OPEN_CHANNELS ∧
    (∀ n, n ≠ 0 → (mkMux (some { maxChannels := some n })).maxChannels = n) := by
  refine ⟨?_, ?_, rfl, rfl, ?_⟩
  · intro busy
    simp [allocateChannel]
  · intro st h opts f1 f2 hd
    simp [openOp, hd, h, allocateChannel]
  · intro n hn
    simp [mkMux, jsOrDefault, DEFAULT_MAX_OPEN_CHANNELS, hn]

/-- Witness for C7 at a zero-cap state and a concrete non-zero option. -/
theorem maxChannels_zero_spec_witness :
    openOp { closed := false, maxChannels := 0, openChannels := [], openRemoteChannels := [] }
        { timeout := none, dstChannel := none } none none =
      { channel := none, err := some (mkWSMError .noChannels none),
        st := { closed := false, maxChannels := 0, openChannels := [], openRemoteChannels := [] },
        evs := [], ackCb := none } ∧
    (mkMux (some { maxChannels := some 9 })).maxChannels = 9 :=
  ⟨maxChannels_zero_spec.2.1 _ rfl _ none none rfl,
   maxChannels_zero_spec.2.2.2.2 9 (by decide)⟩

/-! ## C5: CLOSE payload decoding -/

/-- C5 (code bug): `WebSocketMultiplexError.from` never returns
`undefined` — for an unknown error string the enum lookup yields
`undefined` without throwing and the constructor happily builds an error
whose `code` is `undefined` and whose message reads
"undefined: undefined".  The `|| new Error(errorStr)` fallback in
`handleCloseMessage` is therefore dead code: an inbound CLOSE for the
open channel 1 carrying the unknown payload "hello" surfaces
`ChannelClosedByPeer` whose attached remote error is that bogus typed
error instead of a generic error wrapping "hello". -/
theorem close_payload_unknown_code_bug :
    (∀ s, wsmErrorFrom s = some (.wsm (codeOfString s) (wsmMessage (codeOfString s) none) none)) ∧
    wsmErrorFrom "hello" = some (.wsm none ("undefined" ++ ": " ++ "undefined") none) ∧
    (handleCloseMessage exampleOpenSt
        { header := { version := 2, type := 4, dstChannel := 1, srcChannel := 0, length := 5 },
          data := strBytes "hello" }).evs =
      [Event.cbError 1 (.wsm (some .channelClosedByPeer)
          (wsmMessage (some .channelClosedByPeer) (some ("undefined" ++ ": " ++ "undefined")))
          (some (.wsm none ("undefined" ++ ": " ++ "undefined") none))),
       Event.cbClose 1] := by
  exact ⟨fun s => rfl, rfl, rfl⟩

/-! ## C8: adapter write buffering -/

theorem flushLoop_map (l : List (Nat × List Bytes)) :
    flushLoop l = l.map (fun b => SockOut.muxSend b.1 b.2) := by
  induction l with
  | nil => rfl
  | cons b rest ih => simp [flushLoop, ih]

theorem writeAll_buffered (datas : List (List Bytes)) :
    ∀ (s : SockState), s.writerDirect = false →
      writeAll s datas =
        ({ s with writeBuffer := s.writeBuffer ++ datas.map (fun d => (s.channel, d)) }, []) := by
  induction datas with
  | nil => intro s h; simp [writeAll]
  | cons d rest ih =>
    intro s h
    have hs := ih { channel := s.channel, writerDirect := false,
                    writeBuffer := s.writeBuffer ++ [(s.channel, d)] } rfl
    simp [writeAll, sockWrite, h, bufferedWrite, hs]

/-- C8: while the adapter is opening every consumer write is buffered
(nothing reaches the multiplexer and nothing is dropped); on `onOpen`
the buffer is drained to the multiplexer in issue order and only then
does the writer switch to direct send, under which a later write goes
straight to the multiplexer. -/
theorem buffered_writes_drained (channel : Nat) (datas : List (List Bytes)) :
    (writeAll (initSock channel) datas).2 = [] ∧
    (writeAll (initSock channel) datas).1.writeBuffer = datas.map (fun d => (channel, d)) ∧
    (sockOnOpen (writeAll (initSock channel) datas).1).2 =
      datas.map (fun d => SockOut.muxSend channel d) ∧
    (sockOnOpen (writeAll (initSock channel) datas).1).1.writerDirect = true ∧
    (∀ d, sockWrite (sockOnOpen (writeAll (initSock channel) datas).1).1 d =
      ((sockOnOpen (writeAll (initSock channel) datas).1).1, [SockOut.muxSend channel d])) := by
  have hw := writeAll_buffered datas (initSock channel) rfl
  rw [hw]
  refine ⟨rfl, by simp [initSock], ?_, rfl, ?_⟩
  · simp [sockOnOpen, flushWriteBuffer, flushLoop_map, initSock]
  · intro d
    simp [sockOnOpen, flushWriteBuffer, sockWrite, initSock]

/-! ## C10: no transmission after termination -/

theorem sendMessage_closed (st : MuxState)
    (type dst src : Nat) (data : Option (List Bytes)) (failAt : Option Nat)
    (h : st.closed = true) :
    sendMessage st type dst src data failAt =
      { ok := false, st := st, evs := [], cbErr := some (mkWSMError .sockedClosed none) } := by
  simp [sendMessage, h]

theorem closeLocal_no_ws (S : MuxState) (c : Nat) (err : Option JSError) (fr : WsFrame) :
    Event.wsSend fr ∉ (closeLocalChannel S c err).evs := by
  cases h : alookup S.openChannels c with
  | none => simp [closeLocalChannel, h]
  | some ctx =>
    cases err <;> by_cases h0 : 0 < ctx.dstChannel <;> simp [closeLocalChannel, h, h0]

theorem close_closed_no_ws (st : MuxState) (c : Nat) (f : Option Nat)
    (fr : WsFrame) (h : st.closed = true) : Event.wsSend fr ∉ (close st c f).evs := by
  cases hc : alookup st.openChannels c with
  | none => simp [close, hc]
  | some ctx =>
    by_cases h0 : ctx.dstChannel = 0
    · simp [close, hc, h0]
    · have hre : (closeRemoteChannel st ctx.dstChannel (some c) none f).evs = [] := by
        simp [closeRemoteChannel, sendMessage_closed st _ _ _ _ _ h]
      simp [close, hc, h0, hre, closeLocal_no_ws]

/-- C10: once the multiplexer is closed, every `sendMessage` returns
`false`, writes nothing to the carrier, and hands `ERR_WS_SOCKED_CLOSED`
to the completion callback; consequently none of the public operations
(`send`, `flowControl`, `close`, `open`) emits a carrier frame on a
closed multiplexer (in particular after `destroy()` has completed). -/
theorem closed_no_frames (st : MuxState) (h : st.closed = true) :
    (∀ type dst src data failAt,
      sendMessage st type dst src data failAt =
        { ok := false, st := st, evs := [], cbErr := some (mkWSMError .sockedClosed none) }) ∧
    (∀ c d f fr, Event.wsSend fr ∉ (send st c d f).evs) ∧
    (∀ c stop f fr, Event.wsSend fr ∉ (flowControl st c stop f).evs) ∧
    (∀ c f fr, Event.wsSend fr ∉ (close st c f).evs) ∧
    (∀ opts f1 f2 fr, Event.wsSend fr ∉ (openOp st opts f1 f2).evs) := by
  refine ⟨fun type dst src data failAt => sendMessage_closed st type dst src data failAt h,
    ?_, ?_, fun c f fr => close_closed_no_ws st c f fr h, ?_⟩
  · intro c d f fr
    cases hc : alookup st.openChannels c with
    | none => simp [send, hc]
    | some ctx =>
      by_cases h0 : ctx.dstChannel = 0
      · simp [send, hc, h0]
      · simp [send, hc, h0, sendMessage_closed st _ _ _ _ _ h]
  · intro c stop f fr
    cases hc : alookup st.openChannels c with
    | none => simp [flowControl, hc]
    | some ctx =>
      by_cases h0 : ctx.dstChannel = 0
      · simp [flowControl, hc, h0]
      · simp [flowControl, hc, h0, sendMessage_closed st _ _ _ _ _ h]
  · intro opts f1 f2 fr
    cases hd : opts.dstChannel with
    | none =>
      cases ha : allocateChannel (akeys st.openChannels) st.maxChannels with
      | noChannels => simp [openOp, hd, ha]
      | assertFail => simp [openOp, hd, ha]
      | ok channel => simp [openOp, hd, ha, sendMessage_closed, setCtx, h]
    | some d =>
      by_cases hr : (alookup st.openRemoteChannels d).isSome
      · simp [openOp, hd, hr]
      · cases ha : allocateChannel (akeys st.openChannels) st.maxChannels with
        | noChannels => simp [openOp, hd, hr, ha]
        | assertFail => simp [openOp, hd, hr, ha]
        | ok channel =>
          simp [openOp, hd, hr, ha, sendMessage_closed, close_closed_no_ws, setCtx, h]

/-! ## C1: channel allocation -/

theorem contains_iff_mem (l : List Nat) (a : Nat) : l.contains a = true ↔ a ∈ l :=
  List.elem_iff

theorem length_filter_mono (l : List Nat) (p q : Nat → Bool)
    (h : ∀ x, p x = true → q x = true) :
    (l.filter p).length ≤ (l.filter q).length := by
  induction l with
  | nil => simp
  | cons a t ih =>
    by_cases hp : p a = true
    · simp [List.filter_cons, hp, h a hp]
      omega
    · by_cases hq : q a = true <;> simp [List.filter_cons, hp, hq] <;> omega

theorem filter_succ_lt (busy : List Nat) (ch : Nat) :
    busy.Nodup → ch ∈ busy →
    (busy.filter (fun x => decide (ch + 1 ≤ x))).length + 1 ≤
      (busy.filter (fun x => decide (ch ≤ x))).length := by
  induction busy with
  | nil => intro _ h; cases h
  | cons a t ih =>
    intro hnd hch
    have hnd' : t.Nodup := (List.nodup_cons.mp hnd).2
    rcases List.mem_cons.mp hch with rfl | hmem
    · have hmono := length_filter_mono t (fun x => decide (ch + 1 ≤ x))
        (fun x => decide (ch ≤ x)) (fun x hx => by simp at hx ⊢; omega)
      simp [List.filter_cons, show decide (ch ≤ ch) = true from by simp,
            show decide (ch + 1 ≤ ch) = false from by simp]
      omega
    · by_cases hle : ch ≤ a
      · have hne : a ≠ ch := fun he => (List.nodup_cons.mp hnd).1 (he ▸ hmem)
        have h1 : decide (ch ≤ a) = true := by simp [hle]
        have h2 : decide (ch + 1 ≤ a) = true := by simp; omega
        have := ih hnd' hmem
        simp [List.filter_cons, h1, h2]
        omega
      · have h1 : decide (ch ≤ a) = false := by simp; omega
        have h2 : decide (ch + 1 ≤ a) = false := by simp; omega
        have := ih hnd' hmem
        simp [List.filter_cons, h1, h2]
        omega

theorem probeLoop_facts (busy : List Nat) (hnd : busy.Nodup) :
    ∀ (fuel start : Nat),
      (busy.filter (fun x => decide (start ≤ x))).length < fuel →
      probeLoop busy start fuel ∉ busy ∧ start ≤ probeLoop busy start fuel ∧
        ∀ j, start ≤ j → j < probeLoop busy start fuel → j ∈ busy := by
  intro fuel
  induction fuel with
  | zero => intro start h; exact absurd h (by omega)
  | succ n ih =>
    intro start h
    by_cases hm : busy.contains start = true
    · have hmem : start ∈ busy := (contains_iff_mem busy start).mp hm
      have hstep : probeLoop busy start (n + 1) = probeLoop busy (start + 1) n := by
        show (if busy.contains start = true then probeLoop busy (start + 1) n else start) = _
        rw [if_pos hm]
      have h2 : (busy.filter (fun x => decide (start + 1 ≤ x))).length < n := by
        have := filter_succ_lt busy start hnd hmem
        omega
      obtain ⟨ha, hb, hc⟩ := ih (start + 1) h2
      refine ⟨by rw [hstep]; exact ha, by rw [hstep]; omega, ?_⟩
      intro j hj1 hj2
      rw [hstep] at hj2
      by_cases hj : j = start
      · exact hj ▸ hmem
      · exact hc j (by omega) hj2
    · have hmem : start ∉ busy := fun hx => hm ((contains_iff_mem busy start).mpr hx)
      have hstep : probeLoop busy start (n + 1) = start := by
        show (if busy.contains start = true then probeLoop busy (start + 1) n else start) = start
        rw [if_neg hm]
      rw [hstep]
      exact ⟨hmem, le_refl _, fun j hj1 hj2 => absurd hj2 (by omega)⟩

theorem pairwise_getLast_max (r : Nat → Nat → Prop) (l : List Nat) :
    ∀ (hl : l ≠ []), l.Pairwise r → ∀ x ∈ l, x = l.getLast hl ∨ r x (l.getLast hl) := by
  induction l with
  | nil => intro hl; exact absurd rfl hl
  | cons a t ih =>
    intro hl hp x hx
    cases t with
    | nil =>
      left
      have hxa : x = a := by simpa using hx
      simp [hxa, List.getLast]
    | cons b t2 =>
      have hcons := List.pairwise_cons.mp hp
      have hlast : (a :: b :: t2).getLast hl = (b :: t2).getLast (by simp) :=
        List.getLast_cons (by simp)
      rcases List.mem_cons.mp hx with rfl | hx2
      · right
        rw [hlast]
        exact hcons.1 _ (List.getLast_mem _)
      · rw [hlast]
        exact ih (by simp) hcons.2 x hx2

theorem allocate_ok_facts (busy : List Nat) (maxC c : Nat)
    (h : allocateChannel busy maxC = .ok c) :
    1 ≤ c ∧ c ≤ CHANNEL_MAX ∧ busy.contains c = false := by
  simp only [allocateChannel] at h
  split at h
  · exact absurd h (by simp)
  · split at h
    · rename_i hcond
      cases h
      exact hcond
    · exact absurd h (by simp)

/-- C1 (amended): with fewer allocated ids than `max_channels`, channel
allocation starts from `(L mod 2^32) + 1` where `L` is the allocated id
whose decimal string representation is lexicographically largest (the
keys are sorted as strings, so `L` is in general not the numeric
maximum), probes upward in increments of one without wrap-around until a
free id is found, and returns that id when it lies in `[1, 2^32]`
(throwing its internal range assertion otherwise); every id it returns
is in `[1, 2^32]` and not allocated, the empty table yields id 1, and
the fragmented table {1, 2, 4, 2^32} yields id 3. -/
theorem allocateChannel_lexmax_spec (busy : List Nat) (maxChannels : Nat)
    (hnd : busy.Nodup) (hlen : busy.length < maxChannels) :
    (∀ c, allocateChannel busy maxChannels = .ok c →
      1 ≤ c ∧ c ≤ CHANNEL_MAX ∧ c ∉ busy) ∧
    (busy = [] → allocateChannel busy maxChannels = .ok 1) ∧
    (busy ≠ [] → ∃ L, L ∈ busy ∧ (∀ x ∈ busy, lexRel x L) ∧
      ∃ c, L % CHANNEL_MAX + 1 ≤ c ∧ c ∉ busy ∧
        (∀ j, L % CHANNEL_MAX + 1 ≤ j → j < c → j ∈ busy) ∧
        allocateChannel busy maxChannels =
          (if c ≤ CHANNEL_MAX then .ok c else .assertFail)) ∧
    allocateChannel [1, 2, 4, 4294967296] 65535 = .ok 3 := by
  refine ⟨?_, ?_, ?_, by decide⟩
  · intro c hok
    obtain ⟨h1, h2, h3⟩ := allocate_ok_facts busy maxChannels c hok
    refine ⟨h1, h2, fun hmem => ?_⟩
    rw [(contains_iff_mem busy c).mpr hmem] at h3
    cases h3
  · rintro rfl
    cases maxChannels with
    | zero => omega
    | succ n =>
      simp [allocateChannel, probeLoop, CHANNEL_MAX]
  · intro hne
    have hlen2 : (busy.insertionSort lexRel).length = busy.length :=
      List.length_insertionSort lexRel busy
    have hsne : busy.insertionSort lexRel ≠ [] := by
      intro he
      rw [he] at hlen2
      exact hne (List.eq_nil_of_length_eq_zero hlen2.symm)
    have hLmem : (busy.insertionSort lexRel).getLast hsne ∈ busy :=
      (List.mem_insertionSort lexRel).mp (List.getLast_mem hsne)
    have hLmax : ∀ x ∈ busy, lexRel x ((busy.insertionSort lexRel).getLast hsne) := by
      intro x hx
      have hx2 : x ∈ busy.insertionSort lexRel := (List.mem_insertionSort lexRel).mpr hx
      have hp : (busy.insertionSort lexRel).Pairwise lexRel :=
        List.sorted_insertionSort lexRel busy
      rcases pairwise_getLast_max lexRel (busy.insertionSort lexRel) hsne hp x hx2 with
        heq | hr
      · rw [heq]
        exact lexRel_refl _
      · exact hr
    refine ⟨(busy.insertionSort lexRel).getLast hsne, hLmem, hLmax, ?_⟩
    have hfuel : (busy.filter (fun x =>
        decide ((busy.insertionSort lexRel).getLast hsne % CHANNEL_MAX + 1 ≤ x))).length <
        maxChannels :=
      lt_of_le_of_lt (List.length_filter_le _ _) hlen
    obtain ⟨ha, hb, hc⟩ := probeLoop_facts busy hnd maxChannels
      ((busy.insertionSort lexRel).getLast hsne % CHANNEL_MAX + 1) hfuel
    refine ⟨probeLoop busy ((busy.insertionSort lexRel).getLast hsne % CHANNEL_MAX + 1)
      maxChannels, hb, ha, hc, ?_⟩
    have hguard : ¬ (maxChannels ≤ (busy.insertionSort lexRel).length) := by
      rw [hlen2]
      omega
    have hstart : (busy.insertionSort lexRel).getLast?.getD 0 =
        (busy.insertionSort lexRel).getLast hsne := by
      rw [List.getLast?_eq_getLast _ hsne]
      rfl
    have hcf : busy.contains (probeLoop busy
        ((busy.insertionSort lexRel).getLast hsne % CHANNEL_MAX + 1) maxChannels) = false := by
      cases hcv : busy.contains (probeLoop busy
          ((busy.insertionSort lexRel).getLast hsne % CHANNEL_MAX + 1) maxChannels) with
      | false => rfl
      | true => exact absurd ((contains_iff_mem busy _).mp hcv) ha
    simp only [allocateChannel, hstart]
    rw [if_neg hguard]
    by_cases hcm : probeLoop busy
        ((busy.insertionSort lexRel).getLast hsne % CHANNEL_MAX + 1) maxChannels ≤ CHANNEL_MAX
    · rw [if_pos hcm, if_pos ⟨by omega, hcm, hcf⟩]
    · rw [if_neg hcm, if_neg (fun hcond => hcm hcond.2.1)]

/-- Witness for C1 at the fragmented table {1, 2, 4, 2^32}. -/
theorem allocateChannel_lexmax_spec_witness :
    allocateChannel [1, 2, 4, 4294967296] 65535 = .ok 3 ∧
    (3 : Nat) ∉ [1, 2, 4, 4294967296] :=
  ⟨(allocateChannel_lexmax_spec [1, 2, 4, 4294967296] 65535 (by decide) (by decide)).2.2.2,
   fun hmem => ((allocateChannel_lexmax_spec [1, 2, 4, 4294967296] 65535 (by decide)
      (by decide)).1 3
      (allocateChannel_lexmax_spec [1, 2, 4, 4294967296] 65535 (by decide)
        (by decide)).2.2.2).2.2 hmem⟩

/-- C1 counterexample: for the allocated set {5, 2^32} (two ids, far
below the 65535 cap), the numerically largest id is 2^32 and its wrapped
successor 1 is free, so the claim demands id 1 — but allocation returns
6, because the keys are compared as decimal strings and "5" is the
lexicographically largest key. -/
theorem allocateChannel_numeric_max_counterexample :
    allocateChannel [5, 4294967296] 65535 = .ok 6 ∧
    (4294967296 : Nat) ∈ [(5 : Nat), 4294967296] ∧
    (∀ x ∈ [(5 : Nat), 4294967296], x ≤ 4294967296) ∧
    4294967296 % CHANNEL_MAX + 1 = 1 ∧
    (1 : Nat) ∉ [(5 : Nat), 4294967296] ∧
    ([(5 : Nat), 4294967296]).length < 65535 := by
  exact ⟨by decide, by decide, by decide, by decide, by decide, by decide⟩

/-! ## C2: termination on a version-mismatched frame -/

theorem sendMessage_st_ne_data (st : MuxState) (type dst src : Nat)
    (data : Option (List Bytes)) (f : Option Nat) (h : type ≠ 1) :
    (sendMessage st type dst src data f).st = st := by
  simp only [sendMessage, h, if_false]
  split
  · rfl
  · split
    · rfl
    · split
      · split <;> simp [h]
      · rfl

theorem closeLocal_lookup (st : MuxState) (k : Nat) (err : Option JSError) :
    (∀ c, c ≠ k → alookup (closeLocalChannel st k err).st.openChannels c =
      alookup st.openChannels c) ∧
    alookup (closeLocalChannel st k err).st.openChannels k = none ∧
    (closeLocalChannel st k err).st.closed = st.closed := by
  cases h : alookup st.openChannels k with
  | none =>
    refine ⟨fun c hc => ?_, ?_, ?_⟩
    · simp [closeLocalChannel, h, alookup_adel, hc]
    · simp [closeLocalChannel, h, alookup_adel]
    · simp [closeLocalChannel, h]
  | some ctx =>
    by_cases h0 : 0 < ctx.dstChannel <;> refine ⟨fun c hc => ?_, ?_, ?_⟩
    · simp [closeLocalChannel, h, h0, alookup_adel, hc]
    · simp [closeLocalChannel, h, h0, alookup_adel]
    · simp [closeLocalChannel, h, h0]
    · simp [closeLocalChannel, h, h0, alookup_adel, hc]
    · simp [closeLocalChannel, h, h0, alookup_adel]
    · simp [closeLocalChannel, h, h0]

theorem closeRemote_lookup (st : MuxState) (r0 k : Nat) (err : Option JSError)
    (f : Option Nat) :
    (∀ c, c ≠ k → alookup (closeRemoteChannel st r0 (some k) err f).st.openChannels c =
      alookup st.openChannels c) ∧
    (closeRemoteChannel st r0 (some k) err f).st.closed = st.closed := by
  have hsm : (sendMessage st 4 r0 k (errPayload err) f).st = st :=
    sendMessage_st_ne_data st 4 r0 k (errPayload err) f (by omega)
  constructor
  · intro c hc
    by_cases hk : 0 < k
    · cases h2 : alookup st.openChannels k with
      | none => simp [closeRemoteChannel, hsm, hk, h2]
      | some ctx => simp [closeRemoteChannel, hsm, hk, h2, setCtx, alookup_aset, hc]
    · simp [closeRemoteChannel, hsm, hk]
  · by_cases hk : 0 < k
    · cases h2 : alookup st.openChannels k with
      | none => simp [closeRemoteChannel, hsm, hk, h2]
      | some ctx => simp [closeRemoteChannel, hsm, hk, h2, setCtx]
    · simp [closeRemoteChannel, hsm, hk]

/-- Frames written by `closeRemoteChannel` with no error payload are
CLOSE headers. -/
theorem closeRemote_evs_none (st : MuxState) (r0 : Nat) (k? : Option Nat) (f : Option Nat) :
    ∀ e ∈ (closeRemoteChannel st r0 k? none f).evs,
      ∃ h fin, e = Event.wsSend (.header h fin) ∧ h.type = 4 := by
  intro e he
  simp only [closeRemoteChannel, errPayload, sendMessage] at he
  by_cases hcl : st.closed = true
  · simp [hcl] at he
  · rw [if_neg hcl] at he
    rw [if_neg (by omega : ¬ ((4 : Nat) = 2 ∧ r0 ≠ 0))] at he
    simp only [mkCalls, encodeHeader, totalLen, takeCalls] at he
    cases f with
    | none =>
      simp at he
      exact ⟨_, _, he, rfl⟩
    | some i =>
      by_cases hi : i = 0
      · subst hi
        simp at he
      · simp [show ¬ (i < 1) from by omega] at he
        exact ⟨_, _, he, rfl⟩

/-- Callback events of `closeLocalChannel` without an error are
`on_close` invocations. -/
theorem closeLocal_evs_none (st : MuxState) (k : Nat) :
    ∀ e ∈ (closeLocalChannel st k none).evs, ∃ ch, e = Event.cbClose ch := by
  intro e he
  cases h : alookup st.openChannels k with
  | none => simp [closeLocalChannel, h] at he
  | some ctx =>
    simp [closeLocalChannel, h] at he
    exact ⟨k, he⟩

theorem terminateLoop_facts (keys : List Nat) :
    ∀ (st : MuxState) (fails : Nat → Option Nat),
      (terminateLoop st keys fails).st.closed = st.closed ∧
      (∀ c, c ∈ keys → alookup (terminateLoop st keys fails).st.openChannels c = none) ∧
      (∀ c, c ∉ keys → alookup (terminateLoop st keys fails).st.openChannels c =
        alookup st.openChannels c) ∧
      (∀ e ∈ (terminateLoop st keys fails).evs,
        (∃ h fin, e = Event.wsSend (WsFrame.header h fin) ∧ h.type = 4) ∨
        (∃ ch, e = Event.cbClose ch)) := by
  induction keys with
  | nil =>
    intro st fails
    exact ⟨rfl, fun c hc => absurd hc (List.not_mem_nil c),
      fun c _ => rfl, fun e he => absurd he (List.not_mem_nil e)⟩
  | cons k rest ih =>
    intro st fails
    cases hk : alookup st.openChannels k with
    | none =>
      obtain ⟨hcl, hmem, hnot, hevs⟩ := ih st (fun i => fails (i + 1))
      refine ⟨?_, ?_, ?_, ?_⟩ <;> simp only [terminateLoop, hk]
      · exact hcl
      · intro c hc
        rcases List.mem_cons.mp hc with rfl | hc2
        · by_cases hcr : c ∈ rest
          · exact hmem c hcr
          · rw [hnot c hcr]
            exact hk
        · exact hmem c hc2
      · intro c hc
        exact hnot c (fun h2 => hc (List.mem_cons_of_mem _ h2))
      · exact hevs
    | some ctx =>
      obtain ⟨hr1, hr2⟩ := closeRemote_lookup st ctx.dstChannel k none (fails 0)
      obtain ⟨hl1, hl2, hl3⟩ := closeLocal_lookup
        (closeRemoteChannel st ctx.dstChannel (some k) none (fails 0)).st k none
      obtain ⟨hcl, hmem, hnot, hevs⟩ := ih
        (closeLocalChannel (closeRemoteChannel st ctx.dstChannel (some k) none (fails 0)).st
          k none).st (fun i => fails (i + 1))
      refine ⟨?_, ?_, ?_, ?_⟩ <;> simp only [terminateLoop, hk]
      · rw [hcl, hl3, hr2]
      · intro c hc
        rcases List.mem_cons.mp hc with rfl | hc2
        · by_cases hcr : c ∈ rest
          · exact hmem c hcr
          · rw [hnot c hcr]
            exact hl2
        · exact hmem c hc2
      · intro c hc
        have hc1 : c ≠ k := fun he => hc (he ▸ List.mem_cons_self k rest)
        have hc2 : c ∉ rest := fun h2 => hc (List.mem_cons_of_mem _ h2)
        rw [hnot c hc2, hl1 c hc1, hr1 c hc1]
      · intro e he
        simp only [List.append_assoc, List.mem_append] at he
        rcases he with he | he | he
        · exact Or.inl (closeRemote_evs_none st ctx.dstChannel (some k) (fails 0) e he)
        · exact Or.inr (closeLocal_evs_none _ k e he)
        · exact hevs e he

theorem terminate_facts (st : MuxState) (error : Option JSError) (fails : Nat → Option Nat)
    (hcl : st.closed = false) :
    (terminate st error fails).st.closed = true ∧
    (terminate st error fails).st.openChannels = [] ∧
    ∃ pre, (terminate st error fails).evs =
        pre ++ ((match error with
                 | some e => [Event.emitError e]
                 | none => []) ++ [Event.emitClose]) ∧
      ∀ e ∈ pre, (∃ h fin, e = Event.wsSend (WsFrame.header h fin) ∧ h.type = 4) ∨
        (∃ ch, e = Event.cbClose ch) := by
  obtain ⟨hc, hmem, hnot, hevs⟩ :=
    terminateLoop_facts ((akeys st.openChannels).insertionSort (· ≤ ·)) st fails
  refine ⟨by simp [terminate, hcl], ?_, ?_⟩
  · apply eq_nil_of_alookup_none
    intro c
    have hsame : alookup (terminate st error fails).st.openChannels c =
        alookup (terminateLoop st ((akeys st.openChannels).insertionSort (· ≤ ·))
          fails).st.openChannels c := by
      simp [terminate, hcl]
    rw [hsame]
    by_cases hmemc : c ∈ (akeys st.openChannels).insertionSort (· ≤ ·)
    · exact hmem c hmemc
    · rw [hnot c hmemc, alookup_eq_none_iff]
      intro hak
      exact hmemc ((List.mem_insertionSort _).mpr hak)
  · refine ⟨(terminateLoop st ((akeys st.openChannels).insertionSort (· ≤ ·)) fails).evs,
      ?_, hevs⟩
    simp [terminate, hcl]

/-- C2 (amended): a frame whose version field is not 2 terminates the
session with `UnsupportedProtocolVersion`: every channel is torn down
(which itself sends one CLOSE frame per open channel to the peer —
contrary to the original claim, the termination handler does write to
the carrier), `error` is emitted and then `close`, and from the moment
`closed` is set every further message transmission returns `false`
without writing anything to the carrier. -/
theorem version_mismatch_terminates (st : MuxState) (bytes : Bytes) (fails : Nat → Option Nat)
    (m : WSMMessage) (hdec : decodeMessage bytes = some m) (hv : m.header.version ≠ 2)
    (hcl : st.closed = false) :
    (onMessage st bytes fails).st.closed = true ∧
    (onMessage st bytes fails).st.openChannels = [] ∧
    (∃ pre, (onMessage st bytes fails).evs =
        pre ++ [Event.emitError (mkWSMError .unsupportedProtocolVersion none), Event.emitClose] ∧
        ∀ e ∈ pre, (∃ h fin, e = Event.wsSend (WsFrame.header h fin) ∧ h.type = 4) ∨
          (∃ ch, e = Event.cbClose ch)) ∧
    (∀ type dst src data failAt,
      sendMessage (onMessage st bytes fails).st type dst src data failAt =
        { ok := false, st := (onMessage st bytes fails).st, evs := [],
          cbErr := some (mkWSMError .sockedClosed none) }) := by
  have hon : onMessage st bytes fails =
      terminate st (some (mkWSMError .unsupportedProtocolVersion none)) fails := by
    simp [onMessage, hdec, hv]
  obtain ⟨h1, h2, pre, h3, h4⟩ :=
    terminate_facts st (some (mkWSMError .unsupportedProtocolVersion none)) fails hcl
  rw [hon]
  exact ⟨h1, h2, ⟨pre, h3, h4⟩,
    fun type dst src data failAt => sendMessage_closed _ type dst src data failAt h1⟩

/-- Witness for C2: processing a version-0 frame on a concrete live
multiplexer with one open channel. -/
theorem version_mismatch_terminates_witness :
    (onMessage exampleOpenSt badVersionFrame (fun _ => none)).st.closed = true ∧
    (onMessage exampleOpenSt badVersionFrame (fun _ => none)).st.openChannels = [] := by
  have h := version_mismatch_terminates exampleOpenSt badVersionFrame (fun _ => none)
    { header := { version := 0, type := 1, dstChannel := 255, srcChannel := 1, length := 0 },
      data := [] } (by decide) (by decide) rfl
  exact ⟨h.1, h.2.1⟩

/-- C2 counterexample: on a multiplexer with one open channel (local 1,
peer 7), processing a version-0 frame sends a CLOSE frame on the carrier
— so outbound frames do occur after the version-mismatched frame is
received, contradicting the claim as stated. -/
theorem terminate_sends_close_counterexample :
    (onMessage exampleOpenSt badVersionFrame (fun _ => none)).evs =
      [Event.wsSend (.header { version := 2, type := 4, dstChannel := 7,
                               srcChannel := 1, length := 0 } true),
       Event.cbClose 1,
       Event.emitError (mkWSMError .unsupportedProtocolVersion none),
       Event.emitClose] ∧
    Event.wsSend (.header { version := 2, type := 4, dstChannel := 7,
                            srcChannel := 1, length := 0 } true) ∈
      (onMessage exampleOpenSt badVersionFrame (fun _ => none)).evs := by
  exact ⟨rfl, List.mem_cons_self _ _⟩

/-! ## C3: send on open, opening and absent channels -/

theorem payloadFrames_length (segs : List Bytes) :
    (payloadFrames segs).length = segs.length := by
  induction segs with
  | nil => rfl
  | cons s rest ih =>
    cases rest with
    | nil => rfl
    | cons s2 t => simpa [payloadFrames] using ih

theorem adel_aset {β : Type} (m : AList β) (k : Nat) (v : β) :
    adel (aset m k v) k = adel m k := by
  induction m with
  | nil => simp [aset, adel, List.filter]
  | cons p t ih =>
    by_cases h : p.1 = k
    · simp [aset, h, adel, List.filter_cons]
    · simp only [adel] at ih
      simp [aset, h, adel, List.filter_cons, ih]

/-- C3: `send` fails with an asynchronous `ChannelNotOpen` callback and
no carrier traffic when the channel is absent or still opening; on an
open channel of a live multiplexer it hands the DATA header and payload
frames to the carrier and increments the channel's `bytesWritten` by the
total payload length only once the carrier has accepted all frames
synchronously, while a carrier throw on any frame leaves the whole state
(including `bytesWritten`) unchanged and returns `false`. -/
theorem send_spec (st : MuxState) (channel : Nat) (data : List Bytes) :
    ((alookup st.openChannels channel = none ∨
      (∃ ctx, alookup st.openChannels channel = some ctx ∧ ctx.dstChannel = 0)) →
      ∀ failAt, send st channel data failAt =
        { ok := false, st := st,
          evs := [Event.completion true (some (mkWSMError .channelNotOpen none))] }) ∧
    (∀ ctx, alookup st.openChannels channel = some ctx → 0 < ctx.dstChannel →
      st.closed = false →
      (send st channel data none =
        { ok := true,
          st := setCtx st channel { ctx with bytesWritten := ctx.bytesWritten + totalLen (some data) },
          evs := (mkCalls { version := 2, type := 1, dstChannel := ctx.dstChannel,
                            srcChannel := channel, length := totalLen (some data) }
                    (some data)).map Event.wsSend ++ [Event.completion false none] }) ∧
      (∀ k, k < 1 + data.length →
        (send st channel data (some k)).ok = false ∧
        (send st channel data (some k)).st = st)) := by
  constructor
  · rintro (hc | ⟨ctx, hc, h0⟩) failAt
    · simp [send, hc]
    · simp [send, hc, h0]
  · intro ctx hc h0 hcl
    constructor
    · simp only [send, hc]
      rw [if_neg (by omega : ¬ ctx.dstChannel = 0)]
      simp [sendMessage, hcl, encodeHeader, takeCalls, hc, setCtx]
    · intro k hk
      have hlen : k < (mkCalls { version := 2, type := 1, dstChannel := ctx.dstChannel,
                                 srcChannel := channel, length := totalLen (some data) }
          (some data)).length := by
        simp [mkCalls, payloadFrames_length]
        omega
      constructor <;>
      · simp only [send, hc]
        rw [if_neg (by omega : ¬ ctx.dstChannel = 0)]
        simp [sendMessage, hcl, encodeHeader, takeCalls, hlen]

/-- Witness for C3: a failing send on an absent channel, a successful
send of "hi" on the open channel of `exampleOpenSt`, and an unchanged
state when the carrier throws on the header frame. -/
theorem send_spec_witness :
    send exampleOpenSt 2 [[104, 105]] none =
      { ok := false, st := exampleOpenSt,
        evs := [Event.completion true (some (mkWSMError .channelNotOpen none))] } ∧
    send exampleOpenSt 1 [[104, 105]] none =
      { ok := true,
        st := setCtx exampleOpenSt 1
          { dstChannel := 7, bytesWritten := 0 + 2, bytesRead := 0, ackTimeout := false },
        evs := [Event.wsSend (.header { version := 2, type := 1, dstChannel := 7,
                                        srcChannel := 1, length := 2 } false),
                Event.wsSend (.payload [104, 105] true),
                Event.completion false none] } ∧
    (send exampleOpenSt 1 [[104, 105]] (some 0)).ok = false ∧
    (send exampleOpenSt 1 [[104, 105]] (some 0)).st = exampleOpenSt := by
  refine ⟨(send_spec exampleOpenSt 2 [[104, 105]]).1 (Or.inl rfl) none, ?_, ?_⟩
  · have h := ((send_spec exampleOpenSt 1 [[104, 105]]).2
      { dstChannel := 7, bytesWritten := 0, bytesRead := 0, ackTimeout := false }
      rfl (by decide) rfl).1
    rw [h]
    rfl
  · exact ((send_spec exampleOpenSt 1 [[104, 105]]).2
      { dstChannel := 7, bytesWritten := 0, bytesRead := 0, ackTimeout := false }
      rfl (by decide) rfl).2 0 (by decide)

/-! ## C4: close -/

/-- C4: `close` returns `(false, ChannelNotOpen)` and does nothing when
the channel is absent or still opening; on an open channel of a live
multiplexer it returns `true`, sends a CLOSE frame with `dst` the peer's
channel and `src` the local channel, removes the remote-map entry of the
peer channel, fires `on_close`, and removes the local context (whose
`dst_channel` was cleared before the removal). -/
theorem close_spec (st : MuxState) (channel : Nat) :
    ((alookup st.openChannels channel = none ∨
      (∃ ctx, alookup st.openChannels channel = some ctx ∧ ctx.dstChannel = 0)) →
      ∀ failAt, close st channel failAt =
        { ok := false, err := some (mkWSMError .channelNotOpen none), st := st, evs := [] }) ∧
    (∀ ctx, alookup st.openChannels channel = some ctx → 0 < ctx.dstChannel →
      st.closed = false → 0 < channel →
      close st channel none =
        { ok := true, err := none,
          st := { st with
                  openChannels := adel st.openChannels channel,
                  openRemoteChannels := adel st.openRemoteChannels ctx.dstChannel },
          evs := [Event.wsSend (.header { version := 2, type := 4, dstChannel := ctx.dstChannel,
                                          srcChannel := channel, length := 0 } true),
                  Event.cbClose channel] }) := by
  constructor
  · rintro (hc | ⟨ctx, hc, h0⟩) failAt
    · simp [close, hc]
    · simp [close, hc, h0]
  · intro ctx hc h0 hcl hchan
    have hget2 : alookup (aset st.openChannels channel { ctx with dstChannel := 0 }) channel =
        some { ctx with dstChannel := 0 } := by simp [alookup_aset]
    simp only [close, hc]
    rw [if_neg (by omega : ¬ ctx.dstChannel = 0)]
    simp [closeRemoteChannel, errPayload, sendMessage, hcl, encodeHeader, takeCalls, setCtx,
      closeLocalChannel, hget2, hc, hchan, adel_aset, mkCalls, totalLen]

/-- Witness for C4: closing the open channel of `exampleOpenSt` and a
failing close of an absent channel. -/
theorem close_spec_witness :
    close exampleOpenSt 1 none =
      { ok := true, err := none,
        st := { exampleOpenSt with
                openChannels := adel exampleOpenSt.openChannels 1,
                openRemoteChannels := adel exampleOpenSt.openRemoteChannels 7 },
        evs := [Event.wsSend (.header { version := 2, type := 4, dstChannel := 7,
                                        srcChannel := 1, length := 0 } true),
                Event.cbClose 1] } ∧
    close exampleOpenSt 2 none =
      { ok := false, err := some (mkWSMError .channelNotOpen none),
        st := exampleOpenSt, evs := [] } :=
  ⟨(close_spec exampleOpenSt 1).2
      { dstChannel := 7, bytesWritten := 0, bytesRead := 0, ackTimeout := false }
      rfl (by decide) rfl (by decide),
   (close_spec exampleOpenSt 2).1 (Or.inl rfl) none⟩

/-! ## C6: the bijective-open-maps invariant -/

/-- Witness for C10 at a concrete closed multiplexer. -/
theorem closed_no_frames_witness :
    sendMessage { closed := true, maxChannels := 65535, openChannels := [], openRemoteChannels := [] }
        1 7 1 (some [[65]]) none =
      { ok := false,
        st := { closed := true, maxChannels := 65535, openChannels := [], openRemoteChannels := [] },
        evs := [], cbErr := some (mkWSMError .sockedClosed none) } ∧
    Event.wsSend (.header { version := 2, type := 1, dstChannel := 7, srcChannel := 1, length := 1 } false) ∉
      (send { closed := true, maxChannels := 65535, openChannels := [], openRemoteChannels := [] }
        1 [[65]] none).evs :=
  ⟨(closed_no_frames _ rfl).1 1 7 1 (some [[65]]) none,
   (closed_no_frames _ rfl).2.1 1 [[65]] none _⟩

end WSMX
